import Mathlib

/-!
Shallow embedding of the auth-service credential lifecycle and admission
pipeline (Python, FastAPI + Redis + PostgreSQL), together with proofs about
the embedded operations.

Layout:
* a model of the Redis key-value store exactly at the granularity the
  service uses it (string values, integer counters, sets, per-key TTL),
* the `RedisTokenStore` methods from `src/shared/security/redis_store.py`,
  each keeping the source's key-prefix strings,
* the relational rows and repository operations used by the authentication
  domain (`src/domains/authentication/repository.py`; the SQL text itself
  is not in the tree, so row filters are modelled from the spec),
* the FastAPI dependencies (`src/shared/dependencies.py`), the
  authentication service (`src/domains/authentication/service.py`), the
  users service cache helpers (`src/domains/users/service.py`), the
  trusted-proxy client-ip derivation (`src/shared/utils/client_ip.py`) and
  the rate-limit middleware (`src/shared/middleware/rate_limiter.py`).

Python truthiness on optional strings/ints is made explicit (`pyTruthy`,
`pyTruthyInt`), and where a claim is about which external effects an
operation performs (which store was consulted, whether a TTL write
happened) the embedded function additionally returns a trace record; the
trace only records effects, it never influences control flow.
-/

/-- Python truthiness of an optional string (`None` and `""` are falsy). -/
def pyTruthy : Option String → Bool
  | none => false
  | some s => s ≠ ""

/-- Python truthiness of an optional integer (`None` and `0` are falsy). -/
def pyTruthyInt : Option Int → Bool
  | none => false
  | some n => n ≠ 0

/-- Value of a nonempty all-decimal-digit character list. -/
def decDigits? (l : List Char) : Option Nat :=
  if l ≠ [] && l.all Char.isDigit then
    some (l.foldl (fun acc d => 10 * acc + (d.toNat - 48)) 0)
  else none

/-- Model of Python `int(s)` as the service uses it — on the decimal
digit strings that `str(user_id)` produces; anything else raises
(`none`). -/
def pyInt (s : String) : Option Nat :=
  decDigits? s.data

/-- Model of Python `str.strip()`: drop whitespace from both ends. -/
def pyStrip (s : String) : String :=
  ⟨((s.data.dropWhile Char.isWhitespace).reverse.dropWhile Char.isWhitespace).reverse⟩

/-- Model of Python `s.split(sep)[0]` for a one-character separator: the
characters before the first occurrence (the whole string if absent). -/
def pySplitFirst (s : String) (sep : Char) : String :=
  ⟨s.data.takeWhile (fun c => c ≠ sep)⟩

/-- Model of Python `s.split(sep)` for a one-character separator. -/
def splitOnChar (c : Char) : List Char → List (List Char)
  | [] => [[]]
  | x :: xs =>
    match splitOnChar c xs with
    | [] => [[]]
    | g :: gs => if x = c then [] :: g :: gs else (x :: g) :: gs

/-- A Redis value: plain string, integer counter, or set of strings. -/
inductive RedisVal where
  | vstr (s : String)
  | vint (n : Int)
  | vset (members : List String)
deriving Repr, DecidableEq

/-- One Redis key slot: the stored value and its TTL (`none` = no expiry). -/
structure REntry where
  val : RedisVal
  ttl : Option Int
deriving Repr, DecidableEq

/-- The volatile store: association list from key strings to entries.
Later bindings shadow earlier ones; all operations preserve that. -/
abbrev RedisState := List (String × REntry)

/-- The empty store. -/
def RedisState.empty : RedisState := []

/-- Look up a key. -/
def rlookup : RedisState → String → Option REntry
  | [], _ => none
  | (k', e) :: rest, k => if k' = k then some e else rlookup rest k

/-- Remove a key (Redis `DEL`). -/
def rdel : RedisState → String → RedisState
  | [], _ => []
  | (k', e) :: rest, k => if k' = k then rdel rest k else (k', e) :: rdel rest k

/-- Bind a key to an entry, replacing any previous binding. -/
def rbind (st : RedisState) (k : String) (e : REntry) : RedisState :=
  (k, e) :: rdel st k

/-- Redis `SETEX key ttl value`. -/
def rsetex (st : RedisState) (k : String) (ttlSeconds : Int) (v : String) : RedisState :=
  rbind st k ⟨.vstr v, some ttlSeconds⟩

/-- Redis `EXISTS key`. -/
def rexists (st : RedisState) (k : String) : Bool :=
  (rlookup st k).isSome

/-- Redis `GET key` for string values. -/
def rgetStr (st : RedisState) (k : String) : Option String :=
  match rlookup st k with
  | some ⟨.vstr s, _⟩ => some s
  | _ => none

/-- Redis `INCR key`: create the key at 1 when absent, else add one,
returning the new count.  (Non-integer values never occur on counter keys
in this service; the model returns 0 and leaves the store unchanged.) -/
def rincr (st : RedisState) (k : String) : Int × RedisState :=
  match rlookup st k with
  | none => (1, rbind st k ⟨.vint 1, none⟩)
  | some ⟨.vint n, t⟩ => (n + 1, rbind st k ⟨.vint (n + 1), t⟩)
  | some _ => (0, st)

/-- Redis `EXPIRE key ttl` (no-op on a missing key). -/
def rexpire (st : RedisState) (k : String) (ttlSeconds : Int) : RedisState :=
  match rlookup st k with
  | none => st
  | some e => rbind st k ⟨e.val, some ttlSeconds⟩

/-- The TTL currently attached to a key, `none` when absent or persistent. -/
def rttl (st : RedisState) (k : String) : Option Int :=
  match rlookup st k with
  | some e => e.ttl
  | none => none

/-- Redis `SADD key m` (creates the set when the key is absent). -/
def rsadd (st : RedisState) (k : String) (m : String) : RedisState :=
  match rlookup st k with
  | some ⟨.vset ms, t⟩ =>
      if m ∈ ms then st else rbind st k ⟨.vset (m :: ms), t⟩
  | some _ => st
  | none => rbind st k ⟨.vset [m], none⟩

/-- Redis `SREM key m`. -/
def rsrem (st : RedisState) (k : String) (m : String) : RedisState :=
  match rlookup st k with
  | some ⟨.vset ms, t⟩ => rbind st k ⟨.vset (ms.filter (fun x => x ≠ m)), t⟩
  | _ => st

/-- Redis `SMEMBERS key` (empty list when absent). -/
def rsmembers (st : RedisState) (k : String) : List String :=
  match rlookup st k with
  | some ⟨.vset ms, _⟩ => ms
  | _ => []

/-- Redis `SISMEMBER key m`. -/
def rsismember (st : RedisState) (k : String) (m : String) : Bool :=
  match rlookup st k with
  | some ⟨.vset ms, _⟩ => m ∈ ms
  | _ => false

/-! ### Configuration constants
From `src/shared/constants.py` and `src/shared/security/config.py`
(default values of `SecuritySettings`). -/

/-- `TokenSettings.ACCESS_TOKEN_TTL_SECONDS` (30 minutes). -/
def ACCESS_TOKEN_TTL_SECONDS : Int := 1800

/-- `SecuritySettings.password_max_failed_attempts` default. -/
def password_max_failed_attempts : Int := 5

/-- `SecuritySettings.password_lockout_minutes` default. -/
def password_lockout_minutes : Int := 30

/-! ### RedisTokenStore methods
From `src/shared/security/redis_store.py`; each definition keeps the
source's key-prefix string. -/

/-- `RedisTokenStore.blacklist_token`: `SETEX blacklist:{jti} ttl "1"`. -/
def blacklist_token (st : RedisState) (jti : String) (ttlSeconds : Int) : RedisState :=
  rsetex st ("blacklist:" ++ jti) ttlSeconds "1"

/-- `RedisTokenStore.is_blacklisted`: `EXISTS blacklist:{jti}`. -/
def is_blacklisted (st : RedisState) (jti : String) : Bool :=
  rexists st ("blacklist:" ++ jti)

/-- Result of one `check_rate_limit` call.  `expireSet` records whether the
`EXPIRE` branch ran (the Python function performs it as a side effect when
the incremented count is 1). -/
structure RateLimitResult where
  allowed : Bool
  state : RedisState
  expireSet : Bool
deriving DecidableEq

/-- `RedisTokenStore.check_rate_limit`: increment `ratelimit:{key}`, set
the window TTL when the returned count is 1, admit iff count ≤ max. -/
def check_rate_limit (st : RedisState) (key : String) (max_requests : Int)
    (window_seconds : Int) : RateLimitResult :=
  let redis_key := "ratelimit:" ++ key
  let (current, st1) := rincr st redis_key
  let (st2, expired) :=
    if current = 1 then (rexpire st1 redis_key window_seconds, true) else (st1, false)
  ⟨current ≤ max_requests, st2, expired⟩

/-- `RedisTokenStore.increment_failed_login`: increment
`failed_login:{email}`; on the first failure set the lockout-window TTL. -/
def increment_failed_login (st : RedisState) (email : String) : Int × RedisState :=
  let key := "failed_login:" ++ email
  let (count, st1) := rincr st key
  if count = 1 then (count, rexpire st1 key (password_lockout_minutes * 60))
  else (count, st1)

/-- `RedisTokenStore.get_failed_login_count`: read `failed_login:{email}`,
0 when absent. -/
def get_failed_login_count (st : RedisState) (email : String) : Int :=
  match rlookup st ("failed_login:" ++ email) with
  | some ⟨.vint n, _⟩ => n
  | _ => 0

/-- `RedisTokenStore.reset_failed_login`: delete `failed_login:{email}`. -/
def reset_failed_login (st : RedisState) (email : String) : RedisState :=
  rdel st ("failed_login:" ++ email)

/-- `RedisTokenStore.is_account_locked` (first component of the returned
pair): locked iff the failed count reached the configured threshold. -/
def is_account_locked (st : RedisState) (email : String) : Bool :=
  get_failed_login_count st email ≥ password_max_failed_attempts

/-- `RedisTokenStore.cache_set`: `SETEX cache:{key} ttl value`. -/
def cache_set (st : RedisState) (key : String) (value : String) (ttlSeconds : Int) : RedisState :=
  rsetex st ("cache:" ++ key) ttlSeconds value

/-- `RedisTokenStore.cache_get`: `GET cache:{key}`. -/
def cache_get (st : RedisState) (key : String) : Option String :=
  rgetStr st ("cache:" ++ key)

/-- `RedisTokenStore.cache_delete`: `DEL cache:{key}`. -/
def cache_delete (st : RedisState) (key : String) : RedisState :=
  rdel st ("cache:" ++ key)

/-- Key of a principal's active-access set: `active_tokens:user:{id}`. -/
def activeTokensKey (user_id : Nat) : String :=
  "active_tokens:user:" ++ toString user_id

/-- `RedisTokenStore.register_active_token`: `SADD` the JTI into the
principal's set, then refresh the whole set's TTL. -/
def register_active_token (st : RedisState) (user_id : Nat) (jti : String)
    (ttlSeconds : Int) : RedisState :=
  rexpire (rsadd st (activeTokensKey user_id) jti) (activeTokensKey user_id) ttlSeconds

/-- `RedisTokenStore.get_user_active_tokens`: `SMEMBERS` of the set. -/
def get_user_active_tokens (st : RedisState) (user_id : Nat) : List String :=
  rsmembers st (activeTokensKey user_id)

/-- `RedisTokenStore.is_token_active`: `SISMEMBER` of the set. -/
def is_token_active (st : RedisState) (user_id : Nat) (jti : String) : Bool :=
  rsismember st (activeTokensKey user_id) jti

/-- `RedisTokenStore.remove_active_token`: `SREM` the JTI. -/
def remove_active_token (st : RedisState) (user_id : Nat) (jti : String) : RedisState :=
  rsrem st (activeTokensKey user_id) jti

/-- `RedisTokenStore.clear_user_active_tokens`: delete the whole set. -/
def clear_user_active_tokens (st : RedisState) (user_id : Nat) : RedisState :=
  rdel st (activeTokensKey user_id)

/-- Key of the permissions cache: `permissions:user:{id}`. -/
def permissionsKey (user_id : Nat) : String :=
  "permissions:user:" ++ toString user_id

/-- `RedisTokenStore.cache_user_permissions`: `SETEX permissions:user:{id}
ttl json(data)`.  The serialized projection is modelled as an opaque
string. -/
def cache_user_permissions (st : RedisState) (user_id : Nat)
    (permissions_data : String) (ttlSeconds : Int) : RedisState :=
  rsetex st (permissionsKey user_id) ttlSeconds permissions_data

/-- `RedisTokenStore.get_cached_user_permissions`: `GET
permissions:user:{id}`, `none` = cache miss. -/
def get_cached_user_permissions (st : RedisState) (user_id : Nat) : Option String :=
  rgetStr st (permissionsKey user_id)

/-- `RedisTokenStore.invalidate_user_permissions`: `DEL
permissions:user:{id}`. -/
def invalidate_user_permissions (st : RedisState) (user_id : Nat) : RedisState :=
  rdel st (permissionsKey user_id)

/-! ### Users service cache helpers
From `src/domains/users/service.py`. -/

/-- `users.service.invalidate_user_permissions_cache`: builds the key
`user:{user_id}:permissions` and passes it to `redis_store.cache_delete`
(which prepends `cache:`). -/
def invalidate_user_permissions_cache (st : RedisState) (user_id : Nat) : RedisState :=
  cache_delete st ("user:" ++ toString user_id ++ ":permissions")

/-- `users.service.get_user_permissions_with_cache`, with the relational
projection supplied as an association list (serialized form): on a cache
hit return the cached string; on a miss resolve from source and populate
`permissions:user:{id}` with the 5-minute TTL. -/
def get_user_permissions_with_cache (st : RedisState) (perms_source : List (Nat × String))
    (user_id : Nat) : String × RedisState :=
  match get_cached_user_permissions st user_id with
  | some cached => (cached, st)
  | none =>
      let result := ((perms_source.find? (fun p => p.1 == user_id)).map Prod.snd).getD ""
      (result, cache_user_permissions st user_id result 300)

/-! ### Rate-limit middleware
From `src/shared/middleware/rate_limiter.py`. -/

/-- `RateLimitMiddleware.RATE_LIMITS`: per-path (max requests, window). -/
def RATE_LIMITS : List (String × Int × Int) :=
  [ ("/api/v1/auth/login", 5, 60)
  , ("/api/v1/auth/refresh", 10, 60)
  , ("/api/v1/users/register", 3, 3600)
  , ("/api/v1/auth/logout", 10, 60)
  , ("/api/v1/users/password", 5, 3600) ]

/-- `RateLimitMiddleware._get_rate_limit`: exact path match, else the
default `/api/v1/` bucket (100, 60), else the permissive (1000, 60). -/
def get_rate_limit_bucket (path : String) : Int × Int :=
  match RATE_LIMITS.find? (fun p => p.1 == path) with
  | some p => p.2
  | none => if path.startsWith "/api/v1/" then (100, 60) else (1000, 60)

/-- The counter key built in `RateLimitMiddleware.dispatch`:
`rate_limit:{client_ip}:{path}`. -/
def rateLimitKey (client_ip path : String) : String :=
  "rate_limit:" ++ client_ip ++ ":" ++ path

/-- The rate-limit decision of `RateLimitMiddleware.dispatch` for a
non-`OPTIONS` request: look up the bucket for the path and run
`check_rate_limit` on `rate_limit:{ip}:{path}`. -/
def dispatch_rate_limit (st : RedisState) (client_ip path : String) : RateLimitResult :=
  let bucket := get_rate_limit_bucket path
  check_rate_limit st (rateLimitKey client_ip path) bucket.1 bucket.2

/-- `k` consecutive rate-limit decisions for one `(client, path)` pair
within a single window (no TTL expiry between calls); returns the result
of the `k`-th call (`k ≥ 1`). -/
def dispatch_rate_limit_seq (st : RedisState) (client_ip path : String) :
    Nat → RateLimitResult
  | 0 => dispatch_rate_limit st client_ip path
  | n + 1 => dispatch_rate_limit (dispatch_rate_limit_seq st client_ip path n).state client_ip path

/-! ### Error envelope
`AppException` subclasses from `src/shared/exceptions.py`: HTTP status,
stable error code, user-facing message; `reason` models the
`details["reason"]` entry where the source attaches one. -/

/-- An application error as raised through `AppException`. -/
structure AppError where
  status : Nat
  error_code : String
  message : String
  reason : Option String
deriving Repr, DecidableEq

/-- The single generic login failure (`AUTH_001`) used by every failing
login branch. -/
def genericLoginError : AppError :=
  ⟨401, "AUTH_001", "이메일 또는 비밀번호가 올바르지 않습니다", none⟩

/-- `AUTH_002` raised by the gate on an expired token. -/
def tokenExpiredError : AppError := ⟨401, "AUTH_002", "토큰이 만료되었습니다", none⟩

/-- `AUTH_003` raised on an undecodable token. -/
def invalidTokenError : AppError := ⟨401, "AUTH_003", "유효하지 않은 토큰입니다", none⟩

/-- `AUTH_003` with reason `token_blacklisted` (gate, blacklist hit). -/
def blacklistedError : AppError :=
  ⟨401, "AUTH_003", "유효하지 않은 토큰입니다", some "token_blacklisted"⟩

/-- `AUTH_003` with reason `missing_subject`. -/
def missingSubjectError : AppError :=
  ⟨401, "AUTH_003", "유효하지 않은 토큰입니다", some "missing_subject"⟩

/-- `AUTH_003` with reason `invalid_user_id`. -/
def invalidUserIdError : AppError :=
  ⟨401, "AUTH_003", "유효하지 않은 토큰입니다", some "invalid_user_id"⟩

/-- `AUTH_008` with reason `token_revoked` (gate, active-set miss). -/
def revokedError : AppError :=
  ⟨401, "AUTH_008", "토큰이 취소되었습니다", some "token_revoked"⟩

/-- `USER_002` raised by the gate when the subject row is missing. -/
def userNotFoundError : AppError := ⟨401, "USER_002", "사용자를 찾을 수 없습니다", none⟩

/-- `AUTH_005` raised for an inactive account. -/
def inactiveAccountError : AppError := ⟨401, "AUTH_005", "비활성화된 계정입니다", none⟩

/-- `AUTH_006` raised for an unusable refresh token. -/
def refreshInvalidError : AppError :=
  ⟨401, "AUTH_006", "리프레시 토큰이 유효하지 않습니다", none⟩

/-- The generic 500 envelope produced when an exception escapes a handler
(`generic_exception_handler`), e.g. `int()` on a non-numeric `sub` in
`logout`. -/
def internalError : AppError := ⟨500, "INTERNAL_ERROR", "서버 내부 오류가 발생했습니다", none⟩

/-! ### Relational rows and repository operations
Row shapes from `src/domains/users/repository.py` and
`src/domains/authentication/repository.py`.  The SQL statement files the
repositories load are not in the tree, so the row-level filters and
updates are modelled from the spec (§3 Refresh record, §4.4 invariant 2,
§4.6-7) and from the repositories' own docstrings. -/

/-- A row of `users` (the columns the embedded flows read). `deleted`
stands for `deleted_at IS NOT NULL`. -/
structure UserRow where
  id : Nat
  email : String
  username : String
  password_hash : String
  is_active : Bool
  deleted : Bool
deriving Repr, DecidableEq

/-- A row of `refresh_tokens`.  `revoked` stands for
`revoked_at IS NOT NULL`; `expires_at` is a Unix timestamp. -/
structure RefreshRecord where
  user_id : Nat
  token_hash : String
  device_info : Option String
  revoked : Bool
  expires_at : Int
deriving Repr, DecidableEq

/-- The relational state the embedded flows touch. `perms` is the
source-of-truth roles/permissions projection per principal, serialized;
`login_history` records `(user_id, success)` rows; `last_login` records
`(user_id, timestamp)` updates. -/
structure DBState where
  users : List UserRow
  refresh_tokens : List RefreshRecord
  login_history : List (Nat × Bool)
  last_login : List (Nat × Int)
  perms : List (Nat × String)
deriving Repr, DecidableEq

/-- Modelled from the spec: `users_repository.get_user_by_id` — the SQL
file is absent; per §3 a soft-deleted principal is never returned
(`deleted_at IS NULL` filter, as in the inline query of
`change_password`). -/
def get_user_by_id (db : DBState) (user_id : Nat) : Option UserRow :=
  db.users.find? (fun u => u.id == user_id && !u.deleted)

/-- Modelled from the spec: `users_repository.get_user_by_email`, with the
same `deleted_at IS NULL` filter. -/
def get_user_by_email (db : DBState) (email : String) : Option UserRow :=
  db.users.find? (fun u => u.email == email && !u.deleted)

/-- Modelled from the spec: `repository.get_refresh_token` returns only a
usable row — §4.4 invariant 2: `revoked_at IS NULL AND expires_at > now`
(the repository docstring says "valid tokens only"). -/
def get_refresh_token (db : DBState) (token_hash : String) (now : Int) : Option RefreshRecord :=
  db.refresh_tokens.find? (fun r => r.token_hash == token_hash && !r.revoked && now < r.expires_at)

/-- Modelled from the spec: `repository.revoke_refresh_token` sets
`revoked_at` on the row with this hash (idempotent; a revoked record is
never un-revoked, §3). -/
def revoke_refresh_token (db : DBState) (token_hash : String) : DBState :=
  { db with refresh_tokens :=
      db.refresh_tokens.map (fun r =>
        if r.token_hash == token_hash then { r with revoked := true } else r) }

/-- Modelled from the spec: `repository.revoke_all_user_tokens` revokes
all refresh records of the principal in one statement (§4.4 inv. 4). -/
def revoke_all_user_tokens (db : DBState) (user_id : Nat) : DBState :=
  { db with refresh_tokens :=
      db.refresh_tokens.map (fun r =>
        if r.user_id == user_id then { r with revoked := true } else r) }

/-- Modelled from the spec: `repository.save_refresh_token` inserts a new
(unrevoked) row. -/
def save_refresh_token (db : DBState) (user_id : Nat) (token_hash : String)
    (device_info : Option String) (expires_at : Int) : DBState :=
  { db with refresh_tokens := ⟨user_id, token_hash, device_info, false, expires_at⟩ :: db.refresh_tokens }

/-- Modelled from the spec: `repository.save_login_history` appends a
`(user, success)` row. -/
def save_login_history (db : DBState) (user_id : Nat) (success : Bool) : DBState :=
  { db with login_history := (user_id, success) :: db.login_history }

/-- Modelled from the spec: `repository.update_last_login` records the
login timestamp. -/
def update_last_login (db : DBState) (user_id : Nat) (now : Int) : DBState :=
  { db with last_login := (user_id, now) :: db.last_login }

/-- Model of `hashlib.sha256(...).hexdigest()` — an injective fingerprint
of the input string (the service only ever compares digests for
equality). -/
def sha256_hex (s : String) : String := "sha256:" ++ s

/-- Model of the bcrypt digest produced by `password_hasher.hash` — an
injective function of the password (external library). -/
def bcrypt_hash (p : String) : String := "bcrypt:" ++ p

/-- Model of `password_hasher.verify(password, stored_hash)`. -/
def password_verify (password stored_hash : String) : Bool :=
  stored_hash == bcrypt_hash password

/-! ### Token payloads -/

/-- The claims of a decoded bearer token that the embedded flows read.
`sub` is the principal id as a decimal string. -/
structure TokenPayload where
  sub : Option String
  jti : Option String
  exp : Option Int
deriving Repr, DecidableEq

/-- Outcome of `jwt_handler.decode_token`: the payload on success,
`expired` for `TokenExpiredError`, `invalid` for `InvalidTokenError`
(signature/issuer/shape failures).  The jose decode itself is an external
library; flows below take this outcome as an input. -/
inductive DecodeResult where
  | ok (payload : TokenPayload)
  | expired
  | invalid
deriving Repr, DecidableEq

/-- The dictionary `get_current_user` returns. `perms` is the cached or
re-resolved serialized projection. -/
structure UserInfo where
  id : Nat
  email : String
  username : String
  is_active : Bool
  perms : String
deriving Repr, DecidableEq

/-- Which volatile-store checks a gate invocation performed (trace only;
never influences control flow). -/
structure GateTrace where
  blacklist_queried : Bool
  active_set_queried : Bool
deriving Repr, DecidableEq

/-! ### Verification gate
`get_current_user` / `get_current_active_user` from
`src/shared/dependencies.py`, taken from the decode outcome onwards
(Bearer extraction and jose decode are the function's first two steps;
`decoded` is their combined result). -/

/-- `get_current_user` (lines 38–129): blacklist check (guarded by JTI
truthiness), subject extraction and parse, active-set check (same guard),
user lookup, permissions via cache.  Returns the result, the store (the
permissions cache may be populated) and the trace of volatile-store
checks. -/
def get_current_user (redis : RedisState) (db : DBState) (decoded : DecodeResult) :
    (Except AppError UserInfo) × RedisState × GateTrace :=
  match decoded with
  | .expired => (.error tokenExpiredError, redis, ⟨false, false⟩)
  | .invalid => (.error invalidTokenError, redis, ⟨false, false⟩)
  | .ok payload =>
    if pyTruthy payload.jti && is_blacklisted redis (payload.jti.getD "") then
      (.error blacklistedError, redis, ⟨true, false⟩)
    else if !(pyTruthy payload.sub) then
      (.error missingSubjectError, redis, ⟨pyTruthy payload.jti, false⟩)
    else
      match pyInt (payload.sub.getD "") with
      | none => (.error invalidUserIdError, redis, ⟨pyTruthy payload.jti, false⟩)
      | some user_id =>
        if pyTruthy payload.jti && !(is_token_active redis user_id (payload.jti.getD "")) then
          (.error revokedError, redis, ⟨true, true⟩)
        else
          match get_user_by_id db user_id with
          | none =>
              (.error userNotFoundError, redis,
                ⟨pyTruthy payload.jti, pyTruthy payload.jti⟩)
          | some u =>
              let (perms, redis1) := get_user_permissions_with_cache redis db.perms user_id
              (.ok ⟨u.id, u.email, u.username, u.is_active, perms⟩, redis1,
                ⟨pyTruthy payload.jti, pyTruthy payload.jti⟩)

/-- `get_current_active_user` (lines 132–151): reject an inactive account
with `AUTH_005`. -/
def get_current_active_user (current_user : UserInfo) : Except AppError UserInfo :=
  if !current_user.is_active then .error inactiveAccountError else .ok current_user

/-! ### Authentication service
From `src/domains/authentication/service.py`.  Leading underscores of the
Python helper names are dropped.  The jose token creation
(`jwt_handler.create_*`) draws a fresh UUID jti and signs; its outputs are
supplied through `FreshTokens` (randomness determinized as an input); the
anti-timing `asyncio.sleep` and the `security_logger` audit calls have no
observable effect on state or response and are not modelled. -/

/-- The fresh material `jwt_handler` would produce for one issuance:
the two token strings and the access token's embedded `jti`
(`decode_token(access_token).get("jti")`). -/
structure FreshTokens where
  access_token : String
  access_jti : String
  refresh_token : String
deriving Repr, DecidableEq

/-- The body of `TokenResponse` (`_build_token_response`). -/
structure TokenResponse where
  access_token : String
  refresh_token : String
  token_type : String
  expires_in : Int
deriving Repr, DecidableEq

/-- Which expensive collaborators a login touched (trace only): a `users`
row lookup, and a `password_hasher.verify` call. -/
structure LoginTrace where
  db_lookup : Bool
  hasher_called : Bool
deriving Repr, DecidableEq

/-- `_check_account_locked` (lines 27–53): when the failed counter has
reached the threshold, fail with the generic `AUTH_001` message (the lock
state goes only to the security log). -/
def check_account_locked (redis : RedisState) (email : String) : Option AppError :=
  if is_account_locked redis email then some genericLoginError else none

/-- `_authenticate_user` (lines 56–149): user lookup, password
verification, inactive check; every failing branch raises the generic
`AUTH_001`.  The wrong-password branch with `failed_count >= 5` differs
from the `< 5` branch only in the audit event, and both return the same
error (kept as the source's two branches). -/
def authenticate_user (redis : RedisState) (db : DBState) (email password : String) :
    (Except AppError UserRow) × RedisState × DBState × LoginTrace :=
  match get_user_by_email db email with
  | none =>
      let (_, redis1) := increment_failed_login redis email
      (.error genericLoginError, redis1, db, ⟨true, false⟩)
  | some user_row =>
      if !(password_verify password user_row.password_hash) then
        let (failed_count, redis1) := increment_failed_login redis email
        let db1 := save_login_history db user_row.id false
        if failed_count ≥ 5 then
          (.error genericLoginError, redis1, db1, ⟨true, true⟩)
        else
          (.error genericLoginError, redis1, db1, ⟨true, true⟩)
      else if !user_row.is_active then
        (.error genericLoginError, redis, db, ⟨true, true⟩)
      else
        (.ok user_row, redis, db, ⟨true, true⟩)

/-- `_create_auth_tokens` (lines 152–191): resolve the permissions
projection through the cache, issue the pair, and register the access
token's JTI in the principal's active set with the access TTL (guarded by
the JTI's truthiness, as in the source). -/
def create_auth_tokens (redis : RedisState) (db : DBState) (user_id : Nat)
    (fresh : FreshTokens) : (String × String) × RedisState :=
  let (_, redis1) := get_user_permissions_with_cache redis db.perms user_id
  let redis2 :=
    if fresh.access_jti ≠ "" then
      register_active_token redis1 user_id fresh.access_jti ACCESS_TOKEN_TTL_SECONDS
    else redis1
  ((fresh.access_token, fresh.refresh_token), redis2)

/-- `_save_login_success` (lines 194–242): in one transaction under the
per-principal advisory lock, store the refresh record (SHA-256 hash,
7-day expiry), a success history row, and the last-login timestamp. -/
def save_login_success (db : DBState) (user_id : Nat) (refresh_token : String)
    (device_info : Option String) (now : Int) : DBState :=
  let db1 := save_refresh_token db user_id (sha256_hex refresh_token) device_info (now + 7 * 86400)
  let db2 := save_login_history db1 user_id true
  update_last_login db2 user_id now

/-- `login` (lines 344–404): lockout check, authentication, token
issuance, success persistence, failed-counter reset. -/
def login (redis : RedisState) (db : DBState) (email password : String)
    (device_info : Option String) (fresh : FreshTokens) (now : Int) :
    (Except AppError TokenResponse) × RedisState × DBState × LoginTrace :=
  match check_account_locked redis email with
  | some e => (.error e, redis, db, ⟨false, false⟩)
  | none =>
    match authenticate_user redis db email password with
    | (.error e, redis1, db1, tr) => (.error e, redis1, db1, tr)
    | (.ok user_row, redis1, db1, tr) =>
      let ((access_token, refresh_token), redis2) := create_auth_tokens redis1 db1 user_row.id fresh
      let db2 := save_login_success db1 user_row.id refresh_token device_info now
      let redis3 := reset_failed_login redis2 email
      (.ok ⟨access_token, refresh_token, "bearer", ACCESS_TOKEN_TTL_SECONDS⟩, redis3, db2, tr)

/-- The tail of `logout` shared by the `sub`-present and `sub`-absent
paths: revoke the supplied refresh credential's row, if any. -/
def logout_revoke_refresh (db : DBState) (refresh_token : Option String) : DBState :=
  match refresh_token with
  | some rt => revoke_refresh_token db (sha256_hex rt)
  | none => db

/-- `logout` (lines 407–452): an undecodable token — including an
*expired* one — raises `AUTH_003`; so does a missing/empty `jti`.
Otherwise blacklist the JTI with TTL `max 0 (exp − now)` when `exp` is
truthy, remove it from the subject's active set when `sub` is truthy
(`int(sub)` on a non-numeric subject raises an uncaught `ValueError`,
i.e. HTTP 500), and revoke the supplied refresh record. -/
def logout (redis : RedisState) (db : DBState) (decoded : DecodeResult)
    (refresh_token : Option String) (now : Int) :
    (Except AppError Unit) × RedisState × DBState :=
  match decoded with
  | .expired => (.error invalidTokenError, redis, db)
  | .invalid => (.error invalidTokenError, redis, db)
  | .ok payload =>
    if !(pyTruthy payload.jti) then
      (.error invalidTokenError, redis, db)
    else
      let jti := payload.jti.getD ""
      let redis1 :=
        if pyTruthyInt payload.exp then
          blacklist_token redis jti (max 0 (payload.exp.getD 0 - now))
        else redis
      if pyTruthy payload.sub then
        match pyInt (payload.sub.getD "") with
        | some user_id =>
            let redis2 := remove_active_token redis1 user_id jti
            (.ok (), redis2, logout_revoke_refresh db refresh_token)
        | none => (.error internalError, redis1, db)
      else
        (.ok (), redis1, logout_revoke_refresh db refresh_token)

/-- `_validate_refresh_token_and_get_user` (lines 245–287): decode failure
or an unusable row → `AUTH_006`; a missing or inactive principal →
`AUTH_005` ("account disabled"). -/
def validate_refresh_token_and_get_user (db : DBState) (decoded : DecodeResult)
    (refresh_token : String) (now : Int) : Except AppError (RefreshRecord × UserRow) :=
  match decoded with
  | .expired => .error refreshInvalidError
  | .invalid => .error refreshInvalidError
  | .ok _ =>
    match get_refresh_token db (sha256_hex refresh_token) now with
    | none => .error refreshInvalidError
    | some token_row =>
      match get_user_by_id db token_row.user_id with
      | none => .error inactiveAccountError
      | some user_row =>
        if !user_row.is_active then .error inactiveAccountError
        else .ok (token_row, user_row)

/-- `_rotate_refresh_token` (lines 290–320): one transaction revoking the
old hash and inserting the successor row (7-day expiry). -/
def rotate_refresh_token (db : DBState) (old_token_hash new_refresh_token : String)
    (user_id : Nat) (device_info : Option String) (now : Int) : DBState :=
  save_refresh_token (revoke_refresh_token db old_token_hash) user_id
    (sha256_hex new_refresh_token) device_info (now + 7 * 86400)

/-- `refresh_access_token` (lines 455–491): validate, issue a new pair,
rotate. -/
def refresh_access_token (redis : RedisState) (db : DBState) (request_token : String)
    (decoded : DecodeResult) (fresh : FreshTokens) (now : Int) :
    (Except AppError TokenResponse) × RedisState × DBState :=
  match validate_refresh_token_and_get_user db decoded request_token now with
  | .error e => (.error e, redis, db)
  | .ok (token_row, _) =>
    let ((access_token, refresh_token), redis1) := create_auth_tokens redis db token_row.user_id fresh
    let db1 := rotate_refresh_token db (sha256_hex request_token) refresh_token
      token_row.user_id token_row.device_info now
    (.ok ⟨access_token, refresh_token, "bearer", ACCESS_TOKEN_TTL_SECONDS⟩, redis1, db1)

/-- `revoke_all_sessions` (lines 533–561): revoke every refresh record of
the principal, blacklist every JTI of the principal's active set with a
30-minute TTL (the literal `1800` of the source), then delete the set. -/
def revoke_all_sessions (redis : RedisState) (db : DBState) (user_id : Nat) :
    RedisState × DBState :=
  let db1 := revoke_all_user_tokens db user_id
  let active_jtis := get_user_active_tokens redis user_id
  let redis1 := active_jtis.foldl (fun r jti => blacklist_token r jti 1800) redis
  let redis2 := clear_user_active_tokens redis1 user_id
  (redis2, db1)

/-! ### Trusted-proxy client identification
From `src/shared/utils/client_ip.py`.  `ipaddress.ip_address` /
`ip_network` are Python stdlib; they are modelled here by a textual parser
covering dotted-quad IPv4 (decimal octets ≤ 255, no leading zeros) and
RFC 4291 hexadecimal IPv6 with at most one `::` (the stdlib additionally
accepts IPv4-embedded IPv6 text, which this service never relies on; the
model's parser rejects it, which on such inputs errs toward "not
trusted", the source's own behavior for any unparsable peer). -/

/-- A parsed IP address: four IPv4 octets, or a 128-bit IPv6 value. -/
inductive IpAddr where
  | v4 (a b c d : Nat)
  | v6 (n : Nat)
deriving Repr, DecidableEq

/-- One decimal IPv4 octet: 1–3 digits, no leading zero, value ≤ 255. -/
def parseOctet (g : List Char) : Option Nat :=
  if g.length = 0 || g.length > 3 then none
  else if !(g.all Char.isDigit) then none
  else if g.length > 1 && g.head? = some '0' then none
  else match decDigits? g with
    | some n => if n ≤ 255 then some n else none
    | none => none

/-- Dotted-quad IPv4 text. -/
def parseIPv4 (s : String) : Option IpAddr :=
  match (splitOnChar '.' s.data).mapM parseOctet with
  | some [a, b, c, d] => some (.v4 a b c d)
  | _ => none

/-- Value of one hexadecimal digit, by code point: decimal digits
(48–57), lowercase a–f (97–102), uppercase A–F (65–70). -/
def hexDigitVal (c : Char) : Option Nat :=
  let n := c.toNat
  if n ≤ 57 && 48 ≤ n then some (n - 48)
  else if 102 ≥ n && 97 ≤ n then some (n - 87)
  else if 70 ≥ n && 65 ≤ n then some (n - 55)
  else none

/-- One IPv6 group: 1–4 hex digits. -/
def parseHextet (g : List Char) : Option Nat :=
  if g.length = 0 || g.length > 4 then none
  else (g.mapM hexDigitVal).map (fun ds => ds.foldl (fun acc d => acc * 16 + d) 0)

/-- Split on the two-character separator `::` (leftmost, non-overlapping,
like Python `str.split("::")`). -/
def splitDoubleColon : List Char → List (List Char)
  | [] => [[]]
  | ':' :: ':' :: rest => [] :: splitDoubleColon rest
  | x :: xs =>
    match splitDoubleColon xs with
    | [] => [[x]]
    | g :: gs => (x :: g) :: gs

/-- The group list of one side of a `::`; an empty side has no groups. -/
def ipv6Side (l : List Char) : Option (List Nat) :=
  if l = [] then some [] else (splitOnChar ':' l).mapM parseHextet

/-- RFC 4291 hexadecimal IPv6 text (without embedded IPv4). -/
def parseIPv6 (s : String) : Option IpAddr :=
  match splitDoubleColon s.data with
  | [whole] =>
      match (splitOnChar ':' whole).mapM parseHextet with
      | some gs =>
          if gs.length = 8 then some (.v6 (gs.foldl (fun acc g => acc * 65536 + g) 0))
          else none
      | none => none
  | [l, r] =>
      match ipv6Side l, ipv6Side r with
      | some lg, some rg =>
          if lg.length + rg.length ≤ 7 then
            some (.v6 ((lg ++ List.replicate (8 - lg.length - rg.length) 0 ++ rg).foldl
              (fun acc g => acc * 65536 + g) 0))
          else none
      | _, _ => none
  | _ => none

/-- Model of `ipaddress.ip_address(text)`: IPv4 first, then IPv6;
unparsable text yields `none` (the stdlib raises `ValueError`). -/
def parse_ip (s : String) : Option IpAddr :=
  match parseIPv4 s with
  | some ip => some ip
  | none => parseIPv6 s

/-- Membership of a parsed address in the `TRUSTED_PROXIES` CIDR list:
`10.0.0.0/8`, `172.16.0.0/12`, `192.168.0.0/16`, `127.0.0.0/8`,
`::1/128`, `fd00::/8`. -/
def inTrustedRange : IpAddr → Bool
  | .v4 a b _ _ =>
      a == 10 || (a == 172 && 16 ≤ b && b ≤ 31) || (a == 192 && b == 168) || a == 127
  | .v6 n => n == 1 || n / 2 ^ 120 == 0xfd

/-- `is_trusted_proxy` (lines 23–52): parse then check the CIDR list;
unparsable input is untrusted. -/
def is_trusted_proxy (ip : String) : Bool :=
  match parse_ip ip with
  | some addr => inTrustedRange addr
  | none => false

/-- The request fields `get_client_ip` reads: the directly connected peer
address (`request.client.host`, `none` when `request.client` is absent)
and the two forwarding headers. -/
structure RequestInfo where
  peer : Option String
  x_forwarded_for : Option String
  x_real_ip : Option String
deriving Repr, DecidableEq

/-- `get_client_ip` (lines 55–105): from a trusted peer take the first
comma-separated `X-Forwarded-For` value (stripped), else the stripped
`X-Real-IP`; from an untrusted peer ignore both headers; with no usable
peer address return `"unknown"`. -/
def get_client_ip (req : RequestInfo) : String :=
  let proxy_ip := req.peer
  if pyTruthy proxy_ip && is_trusted_proxy (proxy_ip.getD "") then
    if pyTruthy req.x_forwarded_for then
      pyStrip (pySplitFirst (req.x_forwarded_for.getD "") ',')
    else if pyTruthy req.x_real_ip then
      pyStrip (req.x_real_ip.getD "")
    else if pyTruthy proxy_ip then proxy_ip.getD "" else "unknown"
  else if pyTruthy proxy_ip then proxy_ip.getD "" else "unknown"

/-! ### Store lemmas -/

/-- Deleting key `k` removes exactly `k`. -/
theorem rlookup_rdel (st : RedisState) (k k' : String) :
    rlookup (rdel st k) k' = if k' = k then none else rlookup st k' := by
  induction st with
  | nil => simp [rdel, rlookup]
  | cons p rest ih =>
    obtain ⟨pk, pe⟩ := p
    by_cases h1 : pk = k
    · subst h1
      simp only [rdel, if_pos rfl, rlookup]
      by_cases h2 : k' = pk
      · subst h2
        simp [ih]
      · simp [rlookup, h2, Ne.symm h2, ih]
    · simp only [rdel, if_neg h1, rlookup]
      by_cases h2 : pk = k'
      · have hk : ¬ k' = k := fun h => h1 (h2.trans h)
        simp [rlookup, h2, hk]
      · simp only [if_neg h2, ih]

/-- Binding key `k` changes exactly `k`. -/
theorem rlookup_rbind (st : RedisState) (k k' : String) (e : REntry) :
    rlookup (rbind st k e) k' = if k' = k then some e else rlookup st k' := by
  by_cases h : k = k'
  · subst h
    simp [rbind, rlookup]
  · simp [rbind, rlookup, Ne.symm h, rlookup_rdel]
    exact fun hc => absurd hc h

/-- `String.append` is injective on the right. -/
theorem string_append_right_inj (a : String) {s t : String} (h : a ++ s = a ++ t) : s = t := by
  have h2 : (a ++ s).data = (a ++ t).data := by rw [h]
  simp [String.data_append] at h2
  exact String.ext h2

/-- A blacklist key never collides with an active-set key. -/
theorem blacklist_key_ne_active (j : String) (uid : Nat) :
    ("blacklist:" ++ j) ≠ activeTokensKey uid := by
  intro h
  have h2 : ("blacklist:" ++ j).data = (activeTokensKey uid).data := by rw [h]
  simp [activeTokensKey, String.data_append] at h2

/-- Blacklisting touches only the one blacklist key. -/
theorem rlookup_blacklist_token (st : RedisState) (j : String) (ttlSeconds : Int) (k : String) :
    rlookup (blacklist_token st j ttlSeconds) k =
      if k = "blacklist:" ++ j then some ⟨.vstr "1", some ttlSeconds⟩ else rlookup st k := by
  simp [blacklist_token, rsetex, rlookup_rbind]

/-- A JTI is blacklisted in `st` iff its blacklist key is bound. -/
theorem is_blacklisted_iff (st : RedisState) (j : String) :
    is_blacklisted st j = (rlookup st ("blacklist:" ++ j)).isSome := by
  simp [is_blacklisted, rexists]

/-- Membership of the active set, read through `rlookup`. -/
theorem is_token_active_eq (st : RedisState) (uid : Nat) (j : String) :
    is_token_active st uid j =
      match rlookup st (activeTokensKey uid) with
      | some ⟨.vset ms, _⟩ => (j ∈ ms : Bool)
      | _ => false := by
  simp [is_token_active, rsismember]

/-! ### Claim theorems -/

/-- C3 (code_bug): `invalidate_user_permissions_cache(u)` does NOT delete
the entry `cache_user_permissions(u, …)` wrote.  The writer stores under
`permissions:user:{u}` while the invalidator deletes `cache:user:{u}:permissions`,
so at user id 1 the store is left unchanged, a subsequent cached read
still returns the stale projection (no cache miss), while the store's own
`invalidate_user_permissions` would have produced the miss the claim
describes. -/
theorem C3_invalidation_leaves_stale_entry :
    get_cached_user_permissions
      (invalidate_user_permissions_cache (cache_user_permissions RedisState.empty 1 "proj" 300) 1) 1
      = some "proj" ∧
    invalidate_user_permissions_cache (cache_user_permissions RedisState.empty 1 "proj" 300) 1
      = cache_user_permissions RedisState.empty 1 "proj" 300 ∧
    get_cached_user_permissions
      (invalidate_user_permissions (cache_user_permissions RedisState.empty 1 "proj" 300) 1) 1
      = none := by
  decide

/-- C9 (confirmed): the derived client identity follows the trusted-proxy
policy — from a trusted peer the first comma-separated `X-Forwarded-For`
value (stripped), else the stripped `X-Real-IP`, else the peer address;
from an untrusted peer both headers are ignored; with no peer address the
result is `"unknown"`.  A header carrying the empty string is falsy in the
source (`if forwarded_for:`) and counts as absent. -/
theorem C9_client_ip_policy (req : RequestInfo) :
    (req.peer = none → get_client_ip req = "unknown") ∧
    (∀ p, req.peer = some p → p ≠ "" → is_trusted_proxy p = false → get_client_ip req = p) ∧
    (∀ p f, req.peer = some p → p ≠ "" → is_trusted_proxy p = true →
      req.x_forwarded_for = some f → f ≠ "" →
      get_client_ip req = pyStrip (pySplitFirst f ',')) ∧
    (∀ p r, req.peer = some p → p ≠ "" → is_trusted_proxy p = true →
      pyTruthy req.x_forwarded_for = false → req.x_real_ip = some r → r ≠ "" →
      get_client_ip req = pyStrip r) ∧
    (∀ p, req.peer = some p → p ≠ "" → is_trusted_proxy p = true →
      pyTruthy req.x_forwarded_for = false → pyTruthy req.x_real_ip = false →
      get_client_ip req = p) := by
  refine ⟨?noPeer, ?untrusted, ?xffCase, ?xriCase, ?bareCase⟩
  · intro h
    simp [get_client_ip, h, pyTruthy]
  · intro p hp hne htr
    simp [get_client_ip, hp, pyTruthy, hne, htr]
  · intro p f hp hpne htr hf hfne
    simp [get_client_ip, hp, pyTruthy, hpne, htr, hf, hfne]
  · intro p r hp hpne htr hxff hr hrne
    cases hxf : req.x_forwarded_for with
    | none => simp [get_client_ip, hp, pyTruthy, hpne, htr, hxf, hr, hrne]
    | some f =>
      rw [hxf] at hxff
      simp [pyTruthy] at hxff
      simp [get_client_ip, hp, pyTruthy, hpne, htr, hxf, hxff, hr, hrne]
  · intro p hp hpne htr hxff hxri
    cases hxf : req.x_forwarded_for with
    | none =>
      cases hxr : req.x_real_ip with
      | none => simp [get_client_ip, hp, pyTruthy, hpne, htr, hxf, hxr]
      | some r =>
        rw [hxr] at hxri
        simp [pyTruthy] at hxri
        simp [get_client_ip, hp, pyTruthy, hpne, htr, hxf, hxr, hxri]
    | some f =>
      rw [hxf] at hxff
      simp [pyTruthy] at hxff
      cases hxr : req.x_real_ip with
      | none => simp [get_client_ip, hp, pyTruthy, hpne, htr, hxf, hxff, hxr]
      | some r =>
        rw [hxr] at hxri
        simp [pyTruthy] at hxri
        simp [get_client_ip, hp, pyTruthy, hpne, htr, hxf, hxff, hxr, hxri]

/-- Witness for C9: a trusted peer (`10.0.0.5`) with a two-hop
`X-Forwarded-For` yields the stripped first hop. -/
theorem C9_client_ip_policy_witness :
    get_client_ip ⟨some "10.0.0.5", some " 203.0.113.42 , 10.0.0.5", none⟩ = "203.0.113.42" := by
  have h := (C9_client_ip_policy ⟨some "10.0.0.5", some " 203.0.113.42 , 10.0.0.5", none⟩).2.2.1
    "10.0.0.5" " 203.0.113.42 , 10.0.0.5" rfl (by decide) (by decide) rfl (by decide)
  rw [h]
  decide

/-- State and outputs of the `n`-th (0-based) rate-limit check on one
`(client, path)` pair starting from a fresh window: the counter reads
`n+1` with the bucket's window as TTL, admission is `n+1 ≤ max`, and the
`EXPIRE` write happens exactly on the first check. -/
theorem dispatch_seq_spec (st : RedisState) (ip path : String)
    (h : rlookup st ("ratelimit:" ++ rateLimitKey ip path) = none) :
    ∀ n : Nat,
      rlookup ((dispatch_rate_limit_seq st ip path n).state)
          ("ratelimit:" ++ rateLimitKey ip path)
        = some ⟨.vint ((n : Int) + 1), some (get_rate_limit_bucket path).2⟩ ∧
      (dispatch_rate_limit_seq st ip path n).allowed
        = decide (((n : Int) + 1) ≤ (get_rate_limit_bucket path).1) ∧
      (dispatch_rate_limit_seq st ip path n).expireSet = decide (n = 0) := by
  intro n
  induction n with
  | zero =>
    simp [dispatch_rate_limit_seq, dispatch_rate_limit, check_rate_limit, rincr, h,
      rexpire, rlookup_rbind]
  | succ m ih =>
    obtain ⟨hs, _, _⟩ := ih
    have hne : ((m : Int) + 1) + 1 ≠ 1 := by omega
    simp [dispatch_rate_limit_seq, dispatch_rate_limit, check_rate_limit, rincr, hs,
      rlookup_rbind, hne]

/-- C8 (confirmed): within one window on a fresh counter key, the `k`-th
check for a `(client identity, route bucket)` pair is admitted iff
`k ≤ max_requests` of the path's bucket, and the window TTL is written to
the counter key exactly on the check whose increment returns 1 (the
first), after which the counter carries the bucket's window as TTL. -/
theorem C8_rate_limit_window (st : RedisState) (ip path : String) (k : Nat)
    (hfresh : rlookup st ("ratelimit:" ++ rateLimitKey ip path) = none)
    (hk : 1 ≤ k) :
    ((dispatch_rate_limit_seq st ip path (k - 1)).allowed = true ↔
      (k : Int) ≤ (get_rate_limit_bucket path).1) ∧
    ((dispatch_rate_limit_seq st ip path (k - 1)).expireSet = true ↔ k = 1) ∧
    rttl (dispatch_rate_limit_seq st ip path (k - 1)).state
        ("ratelimit:" ++ rateLimitKey ip path) = some (get_rate_limit_bucket path).2 := by
  obtain ⟨hs, ha, he⟩ := dispatch_seq_spec st ip path hfresh (k - 1)
  have hcast : ((k - 1 : Nat) : Int) + 1 = (k : Int) := by omega
  refine ⟨?_, ?_, ?_⟩
  · rw [ha, hcast]
    simp
  · rw [he]
    simp
    omega
  · rw [rttl, hs]

/-- Witness for C8: on the login bucket (5 per 60 s) from a fresh window,
the 5th check is admitted and the 6th is rejected; only the 1st check
wrote the TTL. -/
theorem C8_rate_limit_window_witness :
    (dispatch_rate_limit_seq RedisState.empty "1.2.3.4" "/api/v1/auth/login" 4).allowed = true ∧
    (dispatch_rate_limit_seq RedisState.empty "1.2.3.4" "/api/v1/auth/login" 5).allowed = false ∧
    (dispatch_rate_limit_seq RedisState.empty "1.2.3.4" "/api/v1/auth/login" 5).expireSet = false := by
  have h5 := C8_rate_limit_window RedisState.empty "1.2.3.4" "/api/v1/auth/login" 5
    (by decide) (by omega)
  have h6 := C8_rate_limit_window RedisState.empty "1.2.3.4" "/api/v1/auth/login" 6
    (by decide) (by omega)
  refine ⟨?_, ?_, ?_⟩
  · exact h5.1.mpr (by decide)
  · have hne : ¬ ((6 : Int) ≤ (get_rate_limit_bucket "/api/v1/auth/login").1) := by decide
    exact Bool.not_eq_true _ |>.mp (fun hc => hne (h6.1.mp hc))
  · have hne : (6 : Nat) ≠ 1 := by decide
    exact Bool.not_eq_true _ |>.mp (fun hc => hne (h6.2.1.mp hc))

/-- Decidable equality for `Except` results (not derived in core). -/
instance exceptDecEq {ε α : Type} [DecidableEq ε] [DecidableEq α] :
    DecidableEq (Except ε α) := fun a b =>
  match a, b with
  | .ok x, .ok y =>
      if h : x = y then isTrue (by rw [h]) else
        isFalse (by intro hc; cases hc; exact h rfl)
  | .error x, .error y =>
      if h : x = y then isTrue (by rw [h]) else
        isFalse (by intro hc; cases hc; exact h rfl)
  | .ok _, .error _ => isFalse (by intro hc; cases hc)
  | .error _, .ok _ => isFalse (by intro hc; cases hc)

/-- C10 (confirmed): a token that decodes with no `jti` claim is accepted
by the gate whenever the subject user exists — and the gate consults
neither the blacklist nor the active-access set (`GateTrace` is all
false), so volatile-store revocation never applies to such a token. -/
theorem C10_gate_accepts_jtiless_token (redis : RedisState) (db : DBState)
    (p : TokenPayload) (s : String) (uid : Nat)
    (hjti : p.jti = none) (hsub : p.sub = some s) (hs : s ≠ "")
    (hparse : pyInt s = some uid) :
    (get_current_user redis db (.ok p)).2.2 = ⟨false, false⟩ ∧
    (∀ u, get_user_by_id db uid = some u →
      (get_current_user redis db (.ok p)).1
        = .ok ⟨u.id, u.email, u.username, u.is_active,
            (get_user_permissions_with_cache redis db.perms uid).1⟩) ∧
    (get_user_by_id db uid = none →
      (get_current_user redis db (.ok p)).1 = .error userNotFoundError) := by
  refine ⟨?_, ?_, ?_⟩
  · cases hu : get_user_by_id db uid <;>
      simp [get_current_user, hjti, pyTruthy, hsub, hs, hparse, hu]
  · intro u hu
    simp [get_current_user, hjti, pyTruthy, hsub, hs, hparse, hu]
  · intro hu
    simp [get_current_user, hjti, pyTruthy, hsub, hs, hparse, hu]

/-- Witness for C10: a jti-less token for the existing user 1 is accepted
with no blacklist or active-set query, even though the active set is
empty and a stale blacklist entry for the empty jti could never match. -/
theorem C10_gate_accepts_jtiless_token_witness :
    ((get_current_user RedisState.empty
        ⟨[⟨1, "e", "u", "bcrypt:p", true, false⟩], [], [], [], []⟩
        (.ok ⟨some "1", none, none⟩)).2.2 = ⟨false, false⟩) ∧
    ((get_current_user RedisState.empty
        ⟨[⟨1, "e", "u", "bcrypt:p", true, false⟩], [], [], [], []⟩
        (.ok ⟨some "1", none, none⟩)).1
      = .ok ⟨1, "e", "u", true, ""⟩) := by
  have h := C10_gate_accepts_jtiless_token RedisState.empty
    ⟨[⟨1, "e", "u", "bcrypt:p", true, false⟩], [], [], [], []⟩
    ⟨some "1", none, none⟩ "1" 1 rfl rfl (by decide) (by decide)
  refine ⟨h.1, ?_⟩
  rw [h.2.1 ⟨1, "e", "u", "bcrypt:p", true, false⟩ (by decide)]
  decide

/-- C1 (corrected): for a bearer token with a (truthy) JTI and a valid
subject, the gate accepts only if the JTI is in the principal's active
set AND absent from the blacklist — but the two conditions are evaluated
blacklist FIRST, active set second: when the blacklist matches, the gate
fails with the blacklist error (`AUTH_003`/`token_blacklisted`)
regardless of active-set membership; the active-set error
(`AUTH_008`/`token_revoked`) is reachable only with a clean blacklist. -/
theorem C1_gate_acceptance_blacklist_first (redis : RedisState) (db : DBState)
    (p : TokenPayload) (j s : String) (uid : Nat)
    (hjti : p.jti = some j) (hj : j ≠ "") (hsub : p.sub = some s) (hs : s ≠ "")
    (hparse : pyInt s = some uid) :
    ((∃ v, (get_current_user redis db (.ok p)).1 = .ok v) →
      is_token_active redis uid j = true ∧ is_blacklisted redis j = false) ∧
    (is_blacklisted redis j = true →
      (get_current_user redis db (.ok p)).1 = .error blacklistedError) ∧
    (is_blacklisted redis j = false → is_token_active redis uid j = false →
      (get_current_user redis db (.ok p)).1 = .error revokedError) := by
  refine ⟨?_, ?_, ?_⟩
  · rintro ⟨v, hv⟩
    by_cases hb : is_blacklisted redis j = true
    · simp [get_current_user, hjti, pyTruthy, hj, hb] at hv
    · by_cases ha : is_token_active redis uid j = true
      · simp at hb
        exact ⟨ha, hb⟩
      · simp at hb
        simp [get_current_user, hjti, pyTruthy, hj, hsub, hs, hparse, hb,
          Bool.not_eq_true _ |>.mp ha] at hv
  · intro hb
    simp [get_current_user, hjti, pyTruthy, hj, hb]
  · intro hb ha
    simp [get_current_user, hjti, pyTruthy, hj, hsub, hs, hparse, hb, ha]

/-- Witness for C1: user 1's token with JTI `"j"` registered in the
active set and a clean blacklist is accepted; the same JTI blacklisted is
rejected with the blacklist error. -/
theorem C1_gate_acceptance_blacklist_first_witness :
    ((get_current_user (register_active_token RedisState.empty 1 "j" 1800)
        ⟨[⟨1, "e", "u", "bcrypt:p", true, false⟩], [], [], [], []⟩
        (.ok ⟨some "1", some "j", none⟩)).1 = .ok ⟨1, "e", "u", true, ""⟩) ∧
    ((get_current_user (blacklist_token (register_active_token RedisState.empty 1 "j" 1800) "j" 100)
        ⟨[⟨1, "e", "u", "bcrypt:p", true, false⟩], [], [], [], []⟩
        (.ok ⟨some "1", some "j", none⟩)).1 = .error blacklistedError) := by
  constructor
  · decide
  · exact (C1_gate_acceptance_blacklist_first
      (blacklist_token (register_active_token RedisState.empty 1 "j" 1800) "j" 100)
      ⟨[⟨1, "e", "u", "bcrypt:p", true, false⟩], [], [], [], []⟩
      ⟨some "1", some "j", none⟩ "j" "1" 1 rfl (by decide) rfl (by decide) (by decide)).2.1
      (by decide)

/-- Counterexample for C1 as stated: at a state where BOTH conditions
fail (JTI blacklisted and not in the active set), the gate reports the
blacklist failure and its trace shows the active set was never queried —
the evaluation order is blacklist first, not active set first as the
claim asserts. -/
theorem C1_counterexample_order :
    (get_current_user (blacklist_token RedisState.empty "j" 100)
        ⟨[⟨1, "e", "u", "bcrypt:p", true, false⟩], [], [], [], []⟩
        (.ok ⟨some "1", some "j", none⟩)).1 = .error blacklistedError ∧
    is_token_active (blacklist_token RedisState.empty "j" 100) 1 "j" = false ∧
    is_blacklisted (blacklist_token RedisState.empty "j" 100) "j" = true ∧
    (get_current_user (blacklist_token RedisState.empty "j" 100)
        ⟨[⟨1, "e", "u", "bcrypt:p", true, false⟩], [], [], [], []⟩
        (.ok ⟨some "1", some "j", none⟩)).2.2.active_set_queried = false ∧
    (get_current_user (blacklist_token RedisState.empty "j" 100)
        ⟨[⟨1, "e", "u", "bcrypt:p", true, false⟩], [], [], [], []⟩
        (.ok ⟨some "1", some "j", none⟩)).1 ≠ .error revokedError := by
  decide

/-- Every failing branch of `_authenticate_user` — no such user, wrong
password (on both sides of the `failed_count >= 5` audit split), inactive
account — returns the one generic `AUTH_001` error. -/
theorem authenticate_user_fails (redis : RedisState) (db : DBState) (email password : String)
    (h : get_user_by_email db email = none ∨
      (∃ u, get_user_by_email db email = some u ∧
        password_verify password u.password_hash = false) ∨
      (∃ u, get_user_by_email db email = some u ∧
        password_verify password u.password_hash = true ∧ u.is_active = false)) :
    (authenticate_user redis db email password).1 = .error genericLoginError := by
  rcases h with h | ⟨u, hu, hv⟩ | ⟨u, hu, hv, hi⟩
  · simp [authenticate_user, h]
  · simp [authenticate_user, hu, hv]
  · simp [authenticate_user, hu, hv, hi]

/-- C4 (confirmed): any login that fails in the locked, no-such-user,
wrong-password, or inactive branch returns the same single error value —
HTTP 401, code `AUTH_001`, message "이메일 또는 비밀번호가 올바르지
않습니다" — so the responses of any two failing branches are identical
and no branch reveals which condition occurred. -/
theorem C4_login_failure_branches_identical (redis : RedisState) (db : DBState)
    (email password : String) (device_info : Option String) (fresh : FreshTokens) (now : Int)
    (h : is_account_locked redis email = true ∨
      get_user_by_email db email = none ∨
      (∃ u, get_user_by_email db email = some u ∧
        password_verify password u.password_hash = false) ∨
      (∃ u, get_user_by_email db email = some u ∧
        password_verify password u.password_hash = true ∧ u.is_active = false)) :
    (login redis db email password device_info fresh now).1 = .error genericLoginError ∧
    genericLoginError.status = 401 ∧ genericLoginError.error_code = "AUTH_001" := by
  refine ⟨?_, rfl, rfl⟩
  by_cases hl : is_account_locked redis email = true
  · simp [login, check_account_locked, hl]
  · rcases h with h | h
    · exact absurd h hl
    · have hres := authenticate_user_fails redis db email password h
      rcases hA : authenticate_user redis db email password with ⟨res, r1, d1, tr⟩
      rw [hA] at hres
      simp at hres
      subst hres
      simp [login, check_account_locked, hl, hA]

/-- Witness for C4: the no-such-user and wrong-password branches at
concrete inputs both yield the same generic error. -/
theorem C4_login_failure_branches_identical_witness :
    (login RedisState.empty ⟨[], [], [], [], []⟩ "ghost@ex.com" "x" none
        ⟨"A", "j", "R"⟩ 0).1 = .error genericLoginError ∧
    (login RedisState.empty ⟨[⟨1, "v@ex.com", "v", "bcrypt:right", true, false⟩], [], [], [], []⟩
        "v@ex.com" "wrong" none ⟨"A", "j", "R"⟩ 0).1 = .error genericLoginError := by
  constructor
  · exact (C4_login_failure_branches_identical RedisState.empty ⟨[], [], [], [], []⟩
      "ghost@ex.com" "x" none ⟨"A", "j", "R"⟩ 0 (Or.inr (Or.inl (by decide)))).1
  · exact (C4_login_failure_branches_identical RedisState.empty
      ⟨[⟨1, "v@ex.com", "v", "bcrypt:right", true, false⟩], [], [], [], []⟩
      "v@ex.com" "wrong" none ⟨"A", "j", "R"⟩ 0
      (Or.inr (Or.inr (Or.inl ⟨⟨1, "v@ex.com", "v", "bcrypt:right", true, false⟩,
        by decide, by decide⟩)))).1

/-- C5 (confirmed): once the failed-login counter for an email has
reached the threshold, login returns the generic `AUTH_001` error with a
trace showing neither a principal lookup nor a hasher invocation — in
particular the short-circuit does not depend on the supplied password, so
a correct password while locked gets the same generic error. -/
theorem C5_lockout_short_circuit (redis : RedisState) (db : DBState)
    (email password : String) (device_info : Option String) (fresh : FreshTokens) (now : Int)
    (h : get_failed_login_count redis email ≥ password_max_failed_attempts) :
    (login redis db email password device_info fresh now).1 = .error genericLoginError ∧
    (login redis db email password device_info fresh now).2.2.2 = ⟨false, false⟩ := by
  have hl : is_account_locked redis email = true := by
    simp [is_account_locked]
    exact h
  constructor <;> simp [login, check_account_locked, hl]

/-- Witness for C5: with the counter at the threshold (5) and the
*correct* password for an existing active user, login still returns the
generic error without touching the database row or the hasher. -/
theorem C5_lockout_short_circuit_witness :
    (login [("failed_login:v@ex.com", ⟨.vint 5, some 900⟩)]
        ⟨[⟨1, "v@ex.com", "v", "bcrypt:pw", true, false⟩], [], [], [], []⟩
        "v@ex.com" "pw" none ⟨"A", "j", "R"⟩ 0).1 = .error genericLoginError ∧
    (login [("failed_login:v@ex.com", ⟨.vint 5, some 900⟩)]
        ⟨[⟨1, "v@ex.com", "v", "bcrypt:pw", true, false⟩], [], [], [], []⟩
        "v@ex.com" "pw" none ⟨"A", "j", "R"⟩ 0).2.2.2 = ⟨false, false⟩ :=
  C5_lockout_short_circuit [("failed_login:v@ex.com", ⟨.vint 5, some 900⟩)]
    ⟨[⟨1, "v@ex.com", "v", "bcrypt:pw", true, false⟩], [], [], [], []⟩
    "v@ex.com" "pw" none ⟨"A", "j", "R"⟩ 0 (by decide)

/-- `revoke_refresh_token` marks every row carrying the hash revoked. -/
theorem revoke_refresh_token_revokes (db : DBState) (h : String) :
    ∀ r ∈ (revoke_refresh_token db h).refresh_tokens, r.token_hash = h → r.revoked = true := by
  intro r hr hh
  simp [revoke_refresh_token, List.mem_map] at hr
  obtain ⟨r0, hr0, heq⟩ := hr
  by_cases hc : r0.token_hash = h
  · rw [← heq]
    simp [hc]
  · rw [← heq] at hh
    simp [hc] at hh

/-- C6 (corrected): for an access token whose decode SUCCEEDS (an expired
token does not — see the counterexample) and which carries truthy `jti`,
`exp` and `sub` claims, logout blacklists the JTI with TTL
`max 0 (exp − now)`, removes the JTI from the subject's active set, and
marks a supplied refresh credential's record revoked (idempotently). -/
theorem C6_logout_effects (redis : RedisState) (db : DBState) (p : TokenPayload)
    (j s : String) (e : Int) (uid : Nat) (refresh_token : Option String) (now : Int)
    (hjti : p.jti = some j) (hj : j ≠ "") (hexp : p.exp = some e) (he : e ≠ 0)
    (hsub : p.sub = some s) (hs : s ≠ "") (hparse : pyInt s = some uid) :
    (logout redis db (.ok p) refresh_token now).1 = .ok () ∧
    is_blacklisted (logout redis db (.ok p) refresh_token now).2.1 j = true ∧
    rttl (logout redis db (.ok p) refresh_token now).2.1 ("blacklist:" ++ j)
      = some (max 0 (e - now)) ∧
    is_token_active (logout redis db (.ok p) refresh_token now).2.1 uid j = false ∧
    (∀ rt, refresh_token = some rt →
      ∀ r ∈ (logout redis db (.ok p) refresh_token now).2.2.refresh_tokens,
        r.token_hash = sha256_hex rt → r.revoked = true) := by
  have hL : logout redis db (.ok p) refresh_token now
      = (.ok (), remove_active_token (blacklist_token redis j (max 0 (e - now))) uid j,
          logout_revoke_refresh db refresh_token) := by
    simp [logout, hjti, pyTruthy, hj, hexp, pyTruthyInt, he, hsub, hs, hparse]
  rw [hL]
  have hbl : rlookup (blacklist_token redis j (max 0 (e - now))) ("blacklist:" ++ j)
      = some ⟨.vstr "1", some (max 0 (e - now))⟩ := by
    rw [rlookup_blacklist_token]
    simp
  have hnk := blacklist_key_ne_active j uid
  refine ⟨rfl, ?bl, ?ttlGoal, ?act, ?rev⟩
  · rw [is_blacklisted_iff]
    cases hca : rlookup (blacklist_token redis j (max 0 (e - now))) (activeTokensKey uid) with
    | none =>
      simp [remove_active_token, rsrem, hca, hbl]
    | some entry =>
      obtain ⟨v, t⟩ := entry
      cases v with
      | vset ms =>
        simp [remove_active_token, rsrem, hca, rlookup_rbind, hnk, hbl]
      | vstr s2 => simp [remove_active_token, rsrem, hca, hbl]
      | vint n2 => simp [remove_active_token, rsrem, hca, hbl]
  · cases hca : rlookup (blacklist_token redis j (max 0 (e - now))) (activeTokensKey uid) with
    | none =>
      simp [remove_active_token, rsrem, hca, rttl, hbl]
    | some entry =>
      obtain ⟨v, t⟩ := entry
      cases v with
      | vset ms =>
        simp [remove_active_token, rsrem, hca, rttl, rlookup_rbind, hnk, hbl]
      | vstr s2 => simp [remove_active_token, rsrem, hca, rttl, hbl]
      | vint n2 => simp [remove_active_token, rsrem, hca, rttl, hbl]
  · cases hca : rlookup (blacklist_token redis j (max 0 (e - now))) (activeTokensKey uid) with
    | none =>
      simp [is_token_active, rsismember, remove_active_token, rsrem, hca]
    | some entry =>
      obtain ⟨v, t⟩ := entry
      cases v with
      | vset ms =>
        simp [is_token_active, rsismember, remove_active_token, rsrem, hca, rlookup_rbind]
      | vstr s2 => simp [is_token_active, rsismember, remove_active_token, rsrem, hca]
      | vint n2 => simp [is_token_active, rsismember, remove_active_token, rsrem, hca]
  · intro rt hrt r hr hh
    rw [hrt] at hr
    exact revoke_refresh_token_revokes db (sha256_hex rt) r hr hh

/-- Witness for C6: a valid token (jti "j", exp 1000, sub "7") with a
supplied refresh credential "R" at time 100: logout succeeds, blacklists
"j" for 900 s, empties the subject's active set, and revokes the refresh
row. -/
theorem C6_logout_effects_witness :
    (logout (register_active_token RedisState.empty 7 "j" 1800)
        ⟨[], [⟨7, sha256_hex "R", none, false, 99999⟩], [], [], []⟩
        (.ok ⟨some "7", some "j", some 1000⟩) (some "R") 100).1 = .ok () ∧
    is_blacklisted (logout (register_active_token RedisState.empty 7 "j" 1800)
        ⟨[], [⟨7, sha256_hex "R", none, false, 99999⟩], [], [], []⟩
        (.ok ⟨some "7", some "j", some 1000⟩) (some "R") 100).2.1 "j" = true ∧
    rttl (logout (register_active_token RedisState.empty 7 "j" 1800)
        ⟨[], [⟨7, sha256_hex "R", none, false, 99999⟩], [], [], []⟩
        (.ok ⟨some "7", some "j", some 1000⟩) (some "R") 100).2.1 ("blacklist:" ++ "j")
      = some (max 0 (1000 - 100)) ∧
    is_token_active (logout (register_active_token RedisState.empty 7 "j" 1800)
        ⟨[], [⟨7, sha256_hex "R", none, false, 99999⟩], [], [], []⟩
        (.ok ⟨some "7", some "j", some 1000⟩) (some "R") 100).2.1 7 "j" = false ∧
    (∀ rt, (some "R" : Option String) = some rt →
      ∀ r ∈ (logout (register_active_token RedisState.empty 7 "j" 1800)
          ⟨[], [⟨7, sha256_hex "R", none, false, 99999⟩], [], [], []⟩
          (.ok ⟨some "7", some "j", some 1000⟩) (some "R") 100).2.2.refresh_tokens,
        r.token_hash = sha256_hex rt → r.revoked = true) :=
  C6_logout_effects (register_active_token RedisState.empty 7 "j" 1800)
    ⟨[], [⟨7, sha256_hex "R", none, false, 99999⟩], [], [], []⟩
    ⟨some "7", some "j", some 1000⟩ "j" "7" 1000 7 (some "R") 100
    rfl (by decide) rfl (by decide) rfl (by decide) (by decide)

/-- Counterexample for C6 as stated: an EXPIRED access token "decodes"
in the claim's sense (jose can read it) but `logout` catches
`TokenExpiredError` and raises `AUTH_003` without blacklisting anything,
removing anything from the active set, or revoking the supplied refresh
credential — the whole state is unchanged. -/
theorem C6_counterexample_expired_rejected :
    logout RedisState.empty ⟨[], [⟨7, sha256_hex "R", none, false, 99999⟩], [], [], []⟩
        .expired (some "R") 0
      = (.error invalidTokenError, RedisState.empty,
          ⟨[], [⟨7, sha256_hex "R", none, false, 99999⟩], [], [], []⟩) := by
  decide

/-- `revoke_all_user_tokens` marks every row of the principal revoked. -/
theorem revoke_all_user_tokens_revokes (db : DBState) (uid : Nat) :
    ∀ r ∈ (revoke_all_user_tokens db uid).refresh_tokens, r.user_id = uid → r.revoked = true := by
  intro r hr hh
  simp [revoke_all_user_tokens, List.mem_map] at hr
  obtain ⟨r0, hr0, heq⟩ := hr
  by_cases hc : r0.user_id = uid
  · rw [← heq]
    simp [hc]
  · rw [← heq] at hh
    simp [hc] at hh

/-- Folding blacklist writes preserves an existing 30-minute entry. -/
theorem blacklist_fold_preserves (js : List String) (st : RedisState) (j : String)
    (h : rlookup st ("blacklist:" ++ j) = some ⟨.vstr "1", some 1800⟩) :
    rlookup (js.foldl (fun r x => blacklist_token r x 1800) st) ("blacklist:" ++ j)
      = some ⟨.vstr "1", some 1800⟩ := by
  induction js generalizing st with
  | nil => exact h
  | cons x xs ih =>
    simp only [List.foldl_cons]
    refine ih (blacklist_token st x 1800) ?_
    rw [rlookup_blacklist_token]
    by_cases hc : ("blacklist:" ++ j) = ("blacklist:" ++ x)
    · simp [hc]
    · simp [hc, h]

/-- Folding blacklist writes over a JTI list blacklists every member. -/
theorem blacklist_fold_sets (js : List String) (st : RedisState) (j : String)
    (hmem : j ∈ js) :
    rlookup (js.foldl (fun r x => blacklist_token r x 1800) st) ("blacklist:" ++ j)
      = some ⟨.vstr "1", some 1800⟩ := by
  induction js generalizing st with
  | nil => cases hmem
  | cons x xs ih =>
    simp only [List.foldl_cons]
    rcases List.mem_cons.mp hmem with hj | hj
    · subst hj
      by_cases hx : j ∈ xs
      · exact ih (blacklist_token st j 1800) hx
      · refine blacklist_fold_preserves xs (blacklist_token st j 1800) j ?_
        rw [rlookup_blacklist_token]
        simp
    · exact ih (blacklist_token st x 1800) hj

/-- Once all of a principal's rows are revoked, no usable row with a hash
owned by that principal remains. -/
theorem get_refresh_token_none_after_revoke_all (db : DBState) (uid : Nat) (h : String)
    (huniq : ∀ r ∈ db.refresh_tokens, r.token_hash = h → r.user_id = uid)
    (now : Int) :
    get_refresh_token (revoke_all_user_tokens db uid) h now = none := by
  rw [get_refresh_token, List.find?_eq_none]
  intro x hx
  simp [revoke_all_user_tokens, List.mem_map] at hx
  obtain ⟨r0, hr0, heq⟩ := hx
  by_cases hc : r0.user_id = uid
  · rw [← heq]
    simp [hc]
  · rw [← heq]
    simp [hc]
    intro hh
    exact absurd (huniq r0 hr0 hh) hc

/-- C2 (confirmed): after `revoke_all_sessions(u)` — (1) every refresh
record of `u` is revoked; (2) every JTI of `u`'s active set is
blacklisted with TTL 1800 = `ACCESS_TOKEN_TTL_SECONDS`, the access-token
lifetime; (3) `u`'s active set is empty; (4) the gate rejects every
jti-bearing token whose subject is `u`, against any relational state;
(5) the refresh endpoint rejects every credential whose SHA-256 hash is
held only by `u`'s records (the spec's unique-hash invariant). -/
theorem C2_revoke_all_sessions_effective (redis : RedisState) (db : DBState) (uid : Nat) :
    (∀ r ∈ (revoke_all_sessions redis db uid).2.refresh_tokens,
      r.user_id = uid → r.revoked = true) ∧
    (∀ j ∈ get_user_active_tokens redis uid,
      is_blacklisted (revoke_all_sessions redis db uid).1 j = true ∧
      rttl (revoke_all_sessions redis db uid).1 ("blacklist:" ++ j)
        = some ACCESS_TOKEN_TTL_SECONDS) ∧
    get_user_active_tokens (revoke_all_sessions redis db uid).1 uid = [] ∧
    (∀ (db2 : DBState) (p : TokenPayload) (j s : String),
      p.jti = some j → j ≠ "" → p.sub = some s → s ≠ "" → pyInt s = some uid →
      ∃ err, (get_current_user (revoke_all_sessions redis db uid).1 db2 (.ok p)).1
        = .error err) ∧
    (∀ (redis2 : RedisState) (tok : String) (dec : DecodeResult)
        (fresh2 : FreshTokens) (now2 : Int),
      (∀ r ∈ db.refresh_tokens, r.token_hash = sha256_hex tok → r.user_id = uid) →
      (refresh_access_token redis2 (revoke_all_sessions redis db uid).2 tok dec
          fresh2 now2).1 = .error refreshInvalidError) := by
  have hout1 : (revoke_all_sessions redis db uid).1
      = rdel ((get_user_active_tokens redis uid).foldl
          (fun r jti => blacklist_token r jti 1800) redis) (activeTokensKey uid) := by
    simp [revoke_all_sessions, clear_user_active_tokens]
  have hout2 : (revoke_all_sessions redis db uid).2 = revoke_all_user_tokens db uid := by
    simp [revoke_all_sessions]
  have hactive_none :
      rlookup (revoke_all_sessions redis db uid).1 (activeTokensKey uid) = none := by
    rw [hout1, rlookup_rdel]
    simp
  refine ⟨?refreshRevoked, ?jtiBlacklisted, ?setCleared, ?gateRejects, ?refreshRejects⟩
  · rw [hout2]
    exact revoke_all_user_tokens_revokes db uid
  · intro j hj
    have hbk : rlookup (revoke_all_sessions redis db uid).1 ("blacklist:" ++ j)
        = some ⟨.vstr "1", some 1800⟩ := by
      rw [hout1, rlookup_rdel, if_neg (blacklist_key_ne_active j uid)]
      exact blacklist_fold_sets (get_user_active_tokens redis uid) redis j hj
    constructor
    · rw [is_blacklisted_iff, hbk]
      rfl
    · rw [rttl, hbk]
      rfl
  · rw [get_user_active_tokens, rsmembers, hactive_none]
  · intro db2 p j s hjti hjne hsub hsne hparse
    by_cases hb : is_blacklisted (revoke_all_sessions redis db uid).1 j = true
    · exact ⟨blacklistedError, by simp [get_current_user, hjti, pyTruthy, hjne, hb]⟩
    · have hact : is_token_active (revoke_all_sessions redis db uid).1 uid j = false := by
        rw [is_token_active, rsismember, hactive_none]
      refine ⟨revokedError, ?_⟩
      simp at hb
      simp [get_current_user, hjti, pyTruthy, hjne, hsub, hsne, hparse, hb, hact]
  · intro redis2 tok dec fresh2 now2 huniq
    have hvr : validate_refresh_token_and_get_user
        (revoke_all_sessions redis db uid).2 dec tok now2 = .error refreshInvalidError := by
      cases dec with
      | expired => rfl
      | invalid => rfl
      | ok p2 =>
        rw [validate_refresh_token_and_get_user, hout2,
          get_refresh_token_none_after_revoke_all db uid (sha256_hex tok) huniq now2]
    simp [refresh_access_token, hvr]

/-- Witness for C2: user 9 with one active JTI "j" and one refresh record
for credential "R": after revoke-all, "j" is blacklisted, the active set
is empty, a token with jti "j" / sub "9" is rejected by the gate, and
refreshing with "R" gets the generic refresh error. -/
theorem C2_revoke_all_sessions_effective_witness :
    is_blacklisted (revoke_all_sessions (register_active_token RedisState.empty 9 "j" 1800)
        ⟨[], [⟨9, sha256_hex "R", none, false, 99999⟩], [], [], []⟩ 9).1 "j" = true ∧
    get_user_active_tokens (revoke_all_sessions (register_active_token RedisState.empty 9 "j" 1800)
        ⟨[], [⟨9, sha256_hex "R", none, false, 99999⟩], [], [], []⟩ 9).1 9 = [] ∧
    (∃ err, (get_current_user
        (revoke_all_sessions (register_active_token RedisState.empty 9 "j" 1800)
          ⟨[], [⟨9, sha256_hex "R", none, false, 99999⟩], [], [], []⟩ 9).1
        ⟨[], [⟨9, sha256_hex "R", none, false, 99999⟩], [], [], []⟩
        (.ok ⟨some "9", some "j", none⟩)).1 = .error err) ∧
    (refresh_access_token RedisState.empty
        (revoke_all_sessions (register_active_token RedisState.empty 9 "j" 1800)
          ⟨[], [⟨9, sha256_hex "R", none, false, 99999⟩], [], [], []⟩ 9).2
        "R" (.ok ⟨some "9", some "r2", none⟩) ⟨"A2", "a2", "R2"⟩ 0).1
      = .error refreshInvalidError := by
  have h := C2_revoke_all_sessions_effective (register_active_token RedisState.empty 9 "j" 1800)
    ⟨[], [⟨9, sha256_hex "R", none, false, 99999⟩], [], [], []⟩ 9
  refine ⟨(h.2.1 "j" (by decide)).1, h.2.2.1, ?_, ?_⟩
  · exact h.2.2.2.1 ⟨[], [⟨9, sha256_hex "R", none, false, 99999⟩], [], [], []⟩
      ⟨some "9", some "j", none⟩ "j" "9" rfl (by decide) rfl (by decide) (by decide)
  · exact h.2.2.2.2 RedisState.empty "R" (.ok ⟨some "9", some "r2", none⟩)
      ⟨"A2", "a2", "R2"⟩ 0 (by decide)

/-- Every error `_authenticate_user` raises is the generic `AUTH_001`. -/
theorem authenticate_user_error_generic (redis : RedisState) (db : DBState)
    (email password : String) {e : AppError}
    (h : (authenticate_user redis db email password).1 = .error e) : e = genericLoginError := by
  rw [authenticate_user.eq_def] at h
  split at h
  · split at h
    · simp at h
      exact h.symm
  · split at h
    · split at h
      · split at h
        · simp at h
          exact h.symm
        · simp at h
          exact h.symm
    · split at h
      · simp at h
        exact h.symm
      · simp at h

/-- Every error `login` raises is the generic `AUTH_001`. -/
theorem login_error_generic (redis : RedisState) (db : DBState) (email password : String)
    (device_info : Option String) (fresh : FreshTokens) (now : Int) {e : AppError}
    (h : (login redis db email password device_info fresh now).1 = .error e) :
    e = genericLoginError := by
  rw [login.eq_def] at h
  split at h
  · rename_i e1 heq
    rw [check_account_locked] at heq
    split at heq
    · simp at heq h
      rw [← h, ← heq]
    · simp at heq
  · split at h
    · rename_i e2 redis1 db1 tr heq2
      simp at h
      subst h
      exact authenticate_user_error_generic redis db email password (by rw [heq2])
    · simp at h

/-- Every error `logout` raises is `AUTH_003` or the 500 envelope. -/
theorem logout_error_cases (redis : RedisState) (db : DBState) (dec : DecodeResult)
    (rt : Option String) (now : Int) {e : AppError}
    (h : (logout redis db dec rt now).1 = .error e) :
    e = invalidTokenError ∨ e = internalError := by
  rw [logout.eq_def] at h
  split at h
  · simp at h
    exact Or.inl h.symm
  · simp at h
    exact Or.inl h.symm
  · split at h
    · simp at h
      exact Or.inl h.symm
    · split at h
      · split at h
        · split at h
          · simp at h
          · simp at h
            exact Or.inr h.symm
        · simp at h
      · split at h
        · split at h
          · simp at h
          · simp at h
            exact Or.inr h.symm
        · simp at h

/-- Every error of the refresh validation helper is `AUTH_006` or the
account-disabled `AUTH_005`. -/
theorem validate_error_cases (db : DBState) (dec : DecodeResult) (tok : String) (now : Int)
    {e : AppError} (h : validate_refresh_token_and_get_user db dec tok now = .error e) :
    e = refreshInvalidError ∨ e = inactiveAccountError := by
  rw [validate_refresh_token_and_get_user.eq_def] at h
  split at h
  · simp at h
    exact Or.inl h.symm
  · simp at h
    exact Or.inl h.symm
  · split at h
    · simp at h
      exact Or.inl h.symm
    · split at h
      · simp at h
        exact Or.inr h.symm
      · split at h
        · simp at h
          exact Or.inr h.symm
        · simp at h

/-- Errors of the refresh endpoint are exactly those of validation. -/
theorem refresh_error_cases (redis : RedisState) (db : DBState) (tok : String)
    (dec : DecodeResult) (fresh : FreshTokens) (now : Int) {e : AppError}
    (h : (refresh_access_token redis db tok dec fresh now).1 = .error e) :
    e = refreshInvalidError ∨ e = inactiveAccountError := by
  rw [refresh_access_token.eq_def] at h
  split at h
  · rename_i e1 heq
    simp at h
    subst h
    exact validate_error_cases db dec tok now heq
  · simp at h

/-- No error the verification gate raises carries code `AUTH_004`. -/
theorem gate_error_never_auth004 (redis : RedisState) (db : DBState) (dec : DecodeResult)
    {e : AppError} (h : (get_current_user redis db dec).1 = .error e) :
    e.error_code ≠ "AUTH_004" := by
  rw [get_current_user.eq_def] at h
  split at h
  · simp at h
    subst h
    decide
  · simp at h
    subst h
    decide
  · split at h
    · simp at h
      subst h
      decide
    · split at h
      · simp at h
        subst h
        decide
      · split at h
        · simp at h
          subst h
          decide
        · split at h
          · simp at h
            subst h
            decide
          · split at h
            · simp at h
              subst h
              decide
            · simp at h

/-- C7 (corrected): `AUTH_004` indeed appears in no response of any
embedded endpoint (login, logout, refresh, verification gate, active-user
gate) — but `AUTH_005` IS returned to callers: refreshing with a usable
refresh credential of an inactive or soft-deleted principal returns the
account-disabled error carrying code `AUTH_005` (not a code-less generic
error), and the active-user gate returns the same `AUTH_005` error for an
inactive principal. -/
theorem C7_auth004_audit_only_auth005_returned :
    (∀ (redis : RedisState) (db : DBState) (email password : String)
        (device_info : Option String) (fresh : FreshTokens) (now : Int) (e : AppError),
      (login redis db email password device_info fresh now).1 = .error e →
      e.error_code ≠ "AUTH_004") ∧
    (∀ (redis : RedisState) (db : DBState) (dec : DecodeResult) (rt : Option String)
        (now : Int) (e : AppError),
      (logout redis db dec rt now).1 = .error e → e.error_code ≠ "AUTH_004") ∧
    (∀ (redis : RedisState) (db : DBState) (tok : String) (dec : DecodeResult)
        (fresh : FreshTokens) (now : Int) (e : AppError),
      (refresh_access_token redis db tok dec fresh now).1 = .error e →
      e.error_code ≠ "AUTH_004") ∧
    (∀ (redis : RedisState) (db : DBState) (dec : DecodeResult) (e : AppError),
      (get_current_user redis db dec).1 = .error e → e.error_code ≠ "AUTH_004") ∧
    (∀ (u : UserInfo) (e : AppError),
      get_current_active_user u = .error e → e.error_code ≠ "AUTH_004") ∧
    (∀ (db : DBState) (p : TokenPayload) (tok : String) (now : Int) (row : RefreshRecord),
      get_refresh_token db (sha256_hex tok) now = some row →
      (get_user_by_id db row.user_id = none ∨
        ∃ u, get_user_by_id db row.user_id = some u ∧ u.is_active = false) →
      validate_refresh_token_and_get_user db (.ok p) tok now = .error inactiveAccountError) ∧
    (∀ u : UserInfo, u.is_active = false →
      get_current_active_user u = .error inactiveAccountError) ∧
    inactiveAccountError.error_code = "AUTH_005" ∧
    inactiveAccountError.message = "비활성화된 계정입니다" := by
  refine ⟨?loginCase, ?logoutCase, ?refreshCase, ?gateCase, ?activeCase, ?validateCase,
    ?inactiveCase, rfl, rfl⟩
  · intro redis db email password device_info fresh now e h
    rw [login_error_generic redis db email password device_info fresh now h]
    decide
  · intro redis db dec rt now e h
    rcases logout_error_cases redis db dec rt now h with he | he <;> rw [he] <;> decide
  · intro redis db tok dec fresh now e h
    rcases refresh_error_cases redis db tok dec fresh now h with he | he <;> rw [he] <;> decide
  · intro redis db dec e h
    exact gate_error_never_auth004 redis db dec h
  · intro u e h
    rw [get_current_active_user] at h
    split at h
    · simp at h
      rw [← h]
      decide
    · simp at h
  · intro db p tok now row hrow huser
    rw [validate_refresh_token_and_get_user, hrow]
    rcases huser with hu | ⟨u, hu, hi⟩
    · simp [hu]
    · simp [hu, hi]
  · intro u hu
    simp [get_current_active_user, hu]

/-- Witness for C7: a usable refresh record of the inactive user 1 makes
validation return the `AUTH_005` account-disabled error, and a concrete
failing login's error code is not `AUTH_004`. -/
theorem C7_auth004_audit_only_auth005_returned_witness :
    validate_refresh_token_and_get_user
        ⟨[⟨1, "e", "u", "bcrypt:p", false, false⟩],
          [⟨1, sha256_hex "R", none, false, 99999⟩], [], [], []⟩
        (.ok ⟨some "1", some "r", none⟩) "R" 0 = .error inactiveAccountError ∧
    genericLoginError.error_code ≠ "AUTH_004" := by
  constructor
  · exact C7_auth004_audit_only_auth005_returned.2.2.2.2.2.1
      ⟨[⟨1, "e", "u", "bcrypt:p", false, false⟩],
        [⟨1, sha256_hex "R", none, false, 99999⟩], [], [], []⟩
      ⟨some "1", some "r", none⟩ "R" 0 ⟨1, sha256_hex "R", none, false, 99999⟩
      (by decide)
      (Or.inr ⟨⟨1, "e", "u", "bcrypt:p", false, false⟩, by decide, rfl⟩)
  · exact C7_auth004_audit_only_auth005_returned.1 RedisState.empty ⟨[], [], [], [], []⟩
      "ghost@ex.com" "x" none ⟨"A", "j", "R"⟩ 0 genericLoginError (by decide)

/-- Counterexample for C7 as stated: refreshing with a usable refresh
credential of an inactive principal returns an error whose code IS
`AUTH_005` — the code reaches the caller rather than staying
audit-only. -/
theorem C7_counterexample_auth005_reaches_caller :
    validate_refresh_token_and_get_user
        ⟨[⟨1, "e", "u", "bcrypt:p", false, false⟩],
          [⟨1, sha256_hex "R", none, false, 99999⟩], [], [], []⟩
        (.ok ⟨some "1", some "r", none⟩) "R" 0
      = .error ⟨401, "AUTH_005", "비활성화된 계정입니다", none⟩ := by
  decide
